import Mathlib

/-!
Verification of the PMS5003 particulate-matter sensor driver.

The development shallowly embeds `src/lib.rs`: bytes are `Fin 256`, 16-bit
values are `Nat` with explicit `% 65536` where the Rust `u16` arithmetic can
wrap, the serial byte source is a finite list of read outcomes (a byte, a
transient would-block signal, or a hard error), and `measure` is a pure
function from such a stream to the decoded result paired with the unconsumed
remainder of the stream.  Hardware effects of `reset`/`init` are recorded as
an ordered trace on an explicit pin state.
-/

namespace PMS5003Lib

/-- The byte type of the wire protocol. -/
abbrev Byte := Fin 256

/-- `PMS5003_DATA_START`: the fixed two-byte frame start marker `[0x42, 0x4D]`. -/
def PMS5003_DATA_START : List Byte := [0x42, 0x4D]

/-- `PMS5003_DATA_LENGTH`: the fixed payload size in bytes. -/
def PMS5003_DATA_LENGTH : Nat := 26

/-- `extract_u16!`: big-endian assembly of two bytes into a `u16`,
`(data[0] as u16) << 8 | (data[1] as u16)`.  The shift of a value below 256
by 8 cannot exceed `0xFF00`, so no wrap-around is modelled. -/
def extract_u16 (b0 b1 : Byte) : Nat := (b0.val <<< 8) ||| b1.val

/-- `checksum!`: sums the bytes of a buffer into a `u16` accumulator; each
`+=` is a `u16` addition, modelled with a `% 65536` wrap at every step. -/
def checksum (data : List Byte) : Nat :=
  data.foldl (fun acc b => (acc + b.val) % 65536) 0

/-- One read outcome of the serial port: `tty.read()` yields a byte, a
`WouldBlock` (retried by the `block!` macro), or a hard error `e`. -/
inductive ReadResult (E : Type) where
  | byte (b : Byte)
  | wouldBlock
  | fail (e : E)
deriving DecidableEq

/-- The PMS5003 `Error` enum. -/
inductive Error (E : Type) where
  /-- Checksum failed: carries `(received, expected)` in source order. -/
  | InvalidData (received expected : Nat)
  /-- Length does not match expectation: carries the received length. -/
  | InvalidLength (received : Nat)
  /-- Serial read error, wrapping the underlying error. -/
  | Serial (e : E)
deriving DecidableEq

/-- The `Concentrations` record: mass concentrations in µg/m³. -/
structure Concentrations where
  pm1p0 : Nat
  pm2p5 : Nat
  pm10p0 : Nat
deriving DecidableEq

/-- The `Absolutes` record: particle counts per 0.1 l. -/
structure Absolutes where
  pm0p3 : Nat
  pm0p5 : Nat
  pm1p0 : Nat
  pm2p5 : Nat
  pm5p0 : Nat
  pm10p0 : Nat
deriving DecidableEq

/-- The `Measurement` record returned by a successful decode. -/
structure Measurement where
  ug_per_m3 : Concentrations
  ug_per_m3_atmospheric : Concentrations
  per_0p1l : Absolutes
deriving DecidableEq

/-- `Measurement::parse`: decode the 26-byte payload at fixed big-endian
2-byte offsets.  The Rust source indexes a fixed `[u8; 26]` array; the list
embedding reads index `i` with `List.getD`. -/
def Measurement.parse (data : List Byte) : Measurement :=
  { ug_per_m3 :=
      { pm1p0 := extract_u16 (data.getD 0 0) (data.getD 1 0)
        pm2p5 := extract_u16 (data.getD 2 0) (data.getD 3 0)
        pm10p0 := extract_u16 (data.getD 4 0) (data.getD 5 0) }
    ug_per_m3_atmospheric :=
      { pm1p0 := extract_u16 (data.getD 6 0) (data.getD 7 0)
        pm2p5 := extract_u16 (data.getD 8 0) (data.getD 9 0)
        pm10p0 := extract_u16 (data.getD 10 0) (data.getD 11 0) }
    per_0p1l :=
      { pm0p3 := extract_u16 (data.getD 12 0) (data.getD 13 0)
        pm0p5 := extract_u16 (data.getD 14 0) (data.getD 15 0)
        pm1p0 := extract_u16 (data.getD 16 0) (data.getD 17 0)
        pm2p5 := extract_u16 (data.getD 18 0) (data.getD 19 0)
        pm5p0 := extract_u16 (data.getD 20 0) (data.getD 21 0)
        pm10p0 := extract_u16 (data.getD 22 0) (data.getD 23 0) } }

/-- `block!(self.tty.read())`: retry past `WouldBlock` outcomes until a byte
or a hard error is produced; `none` when the modelled stream is exhausted.
On any outcome the unconsumed remainder of the stream is returned. -/
def readOne {E : Type} : List (ReadResult E) → Option (Except E Byte × List (ReadResult E))
  | [] => none
  | .wouldBlock :: rest => readOne rest
  | .fail e :: rest => some (.error e, rest)
  | .byte b :: rest => some (.ok b, rest)

/-- The synchronization loop of `measure`: read single bytes, tracking in
`expect` how many marker bytes matched so far; a matching byte advances the
counter, any other byte resets it to zero; the loop ends once both marker
bytes matched consecutively.  `WouldBlock` outcomes are retried, hard errors
abort the scan. -/
def syncScan {E : Type} : Nat → List (ReadResult E) → Option (Except E Unit × List (ReadResult E))
  | _, [] => none
  | expect, .wouldBlock :: rest => syncScan expect rest
  | _, .fail e :: rest => some (.error e, rest)
  | expect, .byte b :: rest =>
      let expect' := if b = PMS5003_DATA_START.getD expect 0 then expect + 1 else 0
      if expect' ≥ PMS5003_DATA_START.length then some (.ok (), rest)
      else syncScan expect' rest

/-- `read!(self, n)`: read exactly `n` bytes into a buffer, retrying each
slot past `WouldBlock` and aborting on the first hard error. -/
def readN {E : Type} : Nat → List (ReadResult E) → Option (Except E (List Byte) × List (ReadResult E))
  | 0, s => some (.ok [], s)
  | _ + 1, [] => none
  | n + 1, .wouldBlock :: rest => readN (n + 1) rest
  | _ + 1, .fail e :: rest => some (.error e, rest)
  | n + 1, .byte b :: rest =>
      match readN n rest with
      | none => none
      | some (.error e, s) => some (.error e, s)
      | some (.ok bs, s) => some (.ok (b :: bs), s)

/-- `PMS5003::measure`: synchronize on the start marker, read and check the
big-endian length field against `PMS5003_DATA_LENGTH + 2`, read the payload,
read the checksum trailer, compare it with the byte sum of marker, length
field and payload, and parse the payload on success.  The result is paired
with the unconsumed remainder of the stream; `none` models stream
exhaustion (the real device blocks forever in that case). -/
def measure {E : Type} (s : List (ReadResult E)) :
    Option (Except (Error E) Measurement × List (ReadResult E)) :=
  match syncScan 0 s with
  | none => none
  | some (.error e, rest) => some (.error (.Serial e), rest)
  | some (.ok _, s1) =>
    match readN 2 s1 with
    | none => none
    | some (.error e, rest) => some (.error (.Serial e), rest)
    | some (.ok raw_length, s2) =>
      let length := extract_u16 (raw_length.getD 0 0) (raw_length.getD 1 0)
      if length ≠ PMS5003_DATA_LENGTH + 2 then
        some (.error (.InvalidLength length), s2)
      else
        match readN PMS5003_DATA_LENGTH s2 with
        | none => none
        | some (.error e, rest) => some (.error (.Serial e), rest)
        | some (.ok data, s3) =>
          match readN 2 s3 with
          | none => none
          | some (.error e, rest) => some (.error (.Serial e), rest)
          | some (.ok raw_expected, s4) =>
            let expected := extract_u16 (raw_expected.getD 0 0) (raw_expected.getD 1 0)
            let received :=
              ((checksum PMS5003_DATA_START + checksum raw_length) % 65536
                + checksum data) % 65536
            if received ≠ expected then
              some (.error (.InvalidData received expected), s4)
            else
              some (.ok (Measurement.parse data), s4)

/-- An externally observable hardware effect of the device controller. -/
inductive Effect where
  | dcSetHigh
  | rstSetLow
  | rstSetHigh
  | delayMs (n : Nat)
deriving DecidableEq

/-- The pin/delay state the controller drives, with a trace that records
every effect in the order it was performed. -/
structure HWState where
  dcHigh : Bool
  rstHigh : Bool
  trace : List Effect
deriving DecidableEq

/-- `self.dc.set_high()`. -/
def dc_set_high (st : HWState) : HWState :=
  { st with dcHigh := true, trace := st.trace ++ [Effect.dcSetHigh] }

/-- `self.rst.set_low()`. -/
def rst_set_low (st : HWState) : HWState :=
  { st with rstHigh := false, trace := st.trace ++ [Effect.rstSetLow] }

/-- `self.rst.set_high()`. -/
def rst_set_high (st : HWState) : HWState :=
  { st with rstHigh := true, trace := st.trace ++ [Effect.rstSetHigh] }

/-- `self.delay.delay_ms(n)`. -/
def delay_ms (n : Nat) (st : HWState) : HWState :=
  { st with trace := st.trace ++ [Effect.delayMs n] }

/-- `PMS5003::reset`, success path of the pin operations:
`delay_ms(100); rst.set_low(); delay_ms(100); rst.set_high()`. -/
def reset (st : HWState) : HWState :=
  rst_set_high (delay_ms 100 (rst_set_low (delay_ms 100 st)))

/-- `PMS5003::init`, success path: `dc.set_high(); rst.set_high(); reset()`. -/
def init (st : HWState) : HWState :=
  reset (rst_set_high (dc_set_high st))

/-- A stream that delivers the given bytes with no transient failures. -/
def byteStream {E : Type} (l : List Byte) : List (ReadResult E) :=
  l.map ReadResult.byte

/-- Plain (unwrapped) byte sum of a buffer, the specification-level view of
the checksum. -/
def sumBytes (l : List Byte) : Nat := (l.map Fin.val).sum

/-- Specification-level checksum of a well-formed frame over marker, length
field `[0x00, 0x1C]` and payload, reduced modulo 2^16 as the wire protocol
demands. -/
def specChecksum (payload : List Byte) : Nat :=
  (0x42 + 0x4D + 0x00 + 0x1C + sumBytes payload) % 65536

/-- Modelled from the spec: the byte sequence of a well-formed frame for a
given 26-byte payload — start marker `42 4D`, big-endian length field
`00 1C`, the payload, and the big-endian checksum trailer equal to the
mod-2^16 sum of all preceding frame bytes. -/
def frameBytes (payload : List Byte) : List Byte :=
  [0x42, 0x4D, 0x00, 0x1C] ++ payload ++
    [⟨specChecksum payload / 256, by
        have h : specChecksum payload < 65536 := Nat.mod_lt _ (by norm_num)
        omega⟩,
     ⟨specChecksum payload % 256, Nat.mod_lt _ (by norm_num)⟩]

/-! ### Helper lemmas -/

/-- Big-endian assembly agrees with its arithmetic reading. -/
theorem extract_u16_eq (b0 b1 : Byte) : extract_u16 b0 b1 = 256 * b0.val + b1.val := by
  have h : b1.val < 2 ^ 8 := b1.isLt
  show b0.val <<< 8 ||| b1.val = 256 * b0.val + b1.val
  rw [Nat.shiftLeft_eq, Nat.mul_comm]
  exact (Nat.mul_add_lt_is_or h b0.val).symm

/-- The wrapping fold of `checksum` from an in-range accumulator. -/
theorem checksum_foldl (l : List Byte) : ∀ acc : Nat, acc < 65536 →
    l.foldl (fun acc b => (acc + b.val) % 65536) acc = (acc + sumBytes l) % 65536 := by
  induction l with
  | nil => intro acc h; simp [sumBytes, Nat.mod_eq_of_lt h]
  | cons b t ih =>
    intro acc h
    rw [List.foldl_cons, ih _ (Nat.mod_lt _ (by norm_num))]
    simp only [sumBytes, List.map_cons, List.sum_cons]
    omega

/-- `checksum` equals the plain byte sum reduced modulo 2^16. -/
theorem checksum_eq (l : List Byte) : checksum l = sumBytes l % 65536 := by
  simpa using checksum_foldl l 0 (by norm_num)

/-- The plain byte sum of an `n`-byte buffer is at most `255 * n`. -/
theorem sumBytes_le (l : List Byte) : sumBytes l ≤ 255 * l.length := by
  induction l with
  | nil => simp [sumBytes]
  | cons b t ih =>
    have hb : b.val ≤ 255 := Nat.lt_succ_iff.mp b.isLt
    simp only [sumBytes, List.map_cons, List.sum_cons, List.length_cons] at ih ⊢
    omega

/-- Unfolding: `readN 0` reads nothing. -/
theorem readN_zero {E : Type} (s : List (ReadResult E)) :
    readN 0 s = some (.ok [], s) := by
  cases s with
  | nil => rfl
  | cons h t => cases h <;> rfl

/-- Unfolding: a byte at the head of the stream fills the next buffer slot. -/
theorem readN_succ_byte {E : Type} (n : Nat) (b : Byte) (rest : List (ReadResult E)) :
    readN (n + 1) (ReadResult.byte b :: rest) =
      match readN n rest with
      | none => none
      | some (.error e, s) => some (.error e, s)
      | some (.ok bs, s) => some (.ok (b :: bs), s) := rfl

/-- A pure byte prefix of the stated length is read back verbatim by `read!`,
leaving exactly the rest of the stream. -/
theorem readN_bytes {E : Type} (l : List Byte) (s : List (ReadResult E)) :
    readN l.length (byteStream l ++ s) = some (.ok l, s) := by
  induction l generalizing s with
  | nil => exact readN_zero s
  | cons b t ih =>
    show readN (t.length + 1) (ReadResult.byte b :: (byteStream t ++ s)) = _
    rw [readN_succ_byte, ih]

/-- The synchronization scan completes on the two marker bytes. -/
theorem syncScan_marker {E : Type} (s : List (ReadResult E)) :
    syncScan 0 (ReadResult.byte 0x42 :: ReadResult.byte 0x4D :: s) =
      some (.ok (), s) := rfl

/-- Bytes other than the first marker byte keep the scan counter at zero:
any noise prefix free of `0x42` is skipped without affecting the scan. -/
theorem syncScan_noise {E : Type} (noise : List Byte) (hn : ∀ b ∈ noise, b ≠ 0x42)
    (s : List (ReadResult E)) :
    syncScan 0 (byteStream noise ++ s) = syncScan 0 s := by
  induction noise with
  | nil => rfl
  | cons b t ih =>
    have hb : b ≠ 0x42 := hn b (List.mem_cons_self b t)
    have ht : ∀ x ∈ t, x ≠ 0x42 := fun x hx => hn x (List.mem_cons_of_mem b hx)
    show syncScan 0 (ReadResult.byte b :: (byteStream t ++ s)) = syncScan 0 s
    rw [show syncScan 0 (ReadResult.byte b :: (byteStream t ++ s)) =
          (if (if b = 0x42 then 1 else 0) ≥ 2 then some (Except.ok (), byteStream t ++ s)
           else syncScan (if b = 0x42 then 1 else 0) (byteStream t ++ s)) from rfl]
    rw [if_neg hb]
    simpa using ih ht

/-- Noise without the first marker byte changes neither the result of
`measure` nor the stream position it leaves behind. -/
theorem measure_noise {E : Type} (noise : List Byte) (hn : ∀ b ∈ noise, b ≠ 0x42)
    (s : List (ReadResult E)) :
    measure (byteStream noise ++ s) = measure s := by
  unfold measure
  rw [syncScan_noise noise hn s]

/-- Master decode lemma: on a marker, a correct length field, a 26-byte
payload and an arbitrary two-byte trailer, `measure` consumes exactly the
frame and succeeds precisely when the trailer equals the mod-2^16 byte sum
of marker, length field and payload; otherwise it reports `InvalidData`
with the computed sum first and the received trailer second. -/
theorem measure_full {E : Type} (p : List Byte) (hp : p.length = 26) (t0 t1 : Byte)
    (s : List (ReadResult E)) :
    measure (byteStream ([0x42, 0x4D, 0x00, 0x1C] ++ p ++ [t0, t1]) ++ s) =
      if (0x42 + 0x4D + 0x00 + 0x1C + sumBytes p) % 65536 = extract_u16 t0 t1 then
        some (.ok (Measurement.parse p), s)
      else
        some (.error (.InvalidData ((0x42 + 0x4D + 0x00 + 0x1C + sumBytes p) % 65536)
          (extract_u16 t0 t1)), s) := by
  have hs : byteStream ([0x42, 0x4D, 0x00, 0x1C] ++ p ++ [t0, t1]) ++ s =
      ReadResult.byte 0x42 :: ReadResult.byte 0x4D ::
        (byteStream [(0x00 : Byte), 0x1C] ++
          (byteStream p ++ (byteStream [t0, t1] ++ s))) := by
    simp [byteStream]
  have h2 : readN 2 (byteStream [(0x00 : Byte), 0x1C] ++
        (byteStream p ++ (byteStream [t0, t1] ++ s))) =
      some (.ok [0x00, 0x1C], byteStream p ++ (byteStream [t0, t1] ++ s)) :=
    readN_bytes [(0x00 : Byte), 0x1C] (byteStream p ++ (byteStream [t0, t1] ++ s))
  have h26 : readN 26 (byteStream p ++ (byteStream [t0, t1] ++ s)) =
      some (.ok p, byteStream [t0, t1] ++ s) := by
    rw [← hp]; exact readN_bytes p (byteStream [t0, t1] ++ s)
  have ht : readN 2 (byteStream [t0, t1] ++ s) = some (.ok [t0, t1], s) :=
    readN_bytes [t0, t1] s
  have hrec : ((checksum PMS5003_DATA_START + checksum [(0x00 : Byte), 0x1C]) % 65536
        + checksum p) % 65536 = (0x42 + 0x4D + 0x00 + 0x1C + sumBytes p) % 65536 := by
    have h1 : checksum PMS5003_DATA_START = 143 := by decide
    have h3 : checksum [(0x00 : Byte), 0x1C] = 28 := by decide
    rw [h1, h3, checksum_eq]
    omega
  have hl : extract_u16 (0x00 : Byte) 0x1C = 28 := by decide
  have h28 : ¬((28 : Nat) ≠ 26 + 2) := by decide
  rw [hs]
  unfold measure
  rw [syncScan_marker]
  simp only [PMS5003_DATA_LENGTH, h2, h26, ht, List.getD_cons_zero, List.getD_cons_succ,
    hl, hrec]
  rw [if_neg h28]
  by_cases hcs : (0x42 + 0x4D + 0x00 + 0x1C + sumBytes p) % 65536 = extract_u16 t0 t1
  · rw [if_neg (fun h => h hcs), if_pos hcs]
  · rw [if_pos hcs, if_neg hcs]

/-- A well-formed frame decodes to the parse of its payload, consuming
exactly the frame. -/
theorem measure_frame {E : Type} (p : List Byte) (hp : p.length = 26)
    (s : List (ReadResult E)) :
    measure (byteStream (frameBytes p) ++ s) = some (.ok (Measurement.parse p), s) := by
  have hlt : specChecksum p < 65536 := Nat.mod_lt _ (by norm_num)
  have h256 : specChecksum p / 256 < 256 := by omega
  have hmod : specChecksum p % 256 < 256 := Nat.mod_lt _ (by norm_num)
  have hcs : (0x42 + 0x4D + 0x00 + 0x1C + sumBytes p) % 65536 =
      extract_u16 ⟨specChecksum p / 256, h256⟩ ⟨specChecksum p % 256, hmod⟩ := by
    rw [extract_u16_eq]
    simp only [specChecksum, sumBytes]
    omega
  have h := measure_full p hp ⟨specChecksum p / 256, h256⟩ ⟨specChecksum p % 256, hmod⟩ s
  rw [if_pos hcs] at h
  exact h

/-! ### Claim theorems -/

/-- Claim C1: for every byte stream consisting of a well-formed frame
(marker `42 4D`, length field 28, checksum trailer equal to the mod-2^16
sum of the preceding frame bytes) preceded by noise bytes that do not match
the marker sequence, `measure` skips the noise and returns the decoded
Measurement of the frame, with the result independent of the noise content;
the synchronization scan advances its match counter on a marker-byte match
and resets it to zero on any mismatch. -/
theorem C1_measure_skips_noise {E : Type} (noise payload : List Byte)
    (hn : ∀ b ∈ noise, b ≠ 0x42) (hp : payload.length = 26) :
    measure ((byteStream (noise ++ frameBytes payload)) : List (ReadResult E)) =
        some (.ok (Measurement.parse payload), []) ∧
    measure ((byteStream (frameBytes payload)) : List (ReadResult E)) =
        some (.ok (Measurement.parse payload), []) ∧
    ∀ (expect : Nat) (b : Byte) (rest : List (ReadResult E)),
      syncScan expect (ReadResult.byte b :: rest) =
        if b = PMS5003_DATA_START.getD expect 0 then
          (if expect + 1 ≥ 2 then some (Except.ok (), rest)
           else syncScan (expect + 1) rest)
        else syncScan 0 rest := by
  have hframe : measure ((byteStream (frameBytes payload)) : List (ReadResult E)) =
      some (.ok (Measurement.parse payload), []) := by
    have h := measure_frame payload hp ([] : List (ReadResult E))
    rwa [List.append_nil] at h
  refine ⟨?_, hframe, ?_⟩
  · have hsplit : (byteStream (noise ++ frameBytes payload) : List (ReadResult E)) =
        byteStream noise ++ byteStream (frameBytes payload) := by
      simp [byteStream]
    rw [hsplit, measure_noise noise hn _, hframe]
  · intro expect b rest
    rw [show syncScan expect (ReadResult.byte b :: rest) =
        (if (if b = PMS5003_DATA_START.getD expect 0 then expect + 1 else 0) ≥ 2
         then some (Except.ok (), rest)
         else syncScan (if b = PMS5003_DATA_START.getD expect 0 then expect + 1 else 0)
           rest) from rfl]
    by_cases hb : b = PMS5003_DATA_START.getD expect 0
    · rw [if_pos hb, if_pos hb]
    · rw [if_neg hb, if_neg hb, if_neg (by omega : ¬(0 ≥ 2))]

/-- Claim C2, counterexample: starting from an empty trace, `reset` does not
perform the sequence low, delay 100 ms, high, delay 100 ms. -/
theorem C2_reset_counterexample :
    (reset ⟨true, true, []⟩).trace ≠
      [Effect.rstSetLow, Effect.delayMs 100, Effect.rstSetHigh, Effect.delayMs 100] := by
  decide

/-- Claim C2, amended: `reset` performs, in order, a 100 ms delay, drives
the reset line low, delays 100 ms, drives the reset line high, and then
returns with the reset line high; the 100 ms delay precedes the low phase
and no delay follows the high transition. -/
theorem C2_reset_sequence (st : HWState) :
    (reset st).trace = st.trace ++
      [Effect.delayMs 100, Effect.rstSetLow, Effect.delayMs 100, Effect.rstSetHigh] ∧
    (reset st).rstHigh = true := by
  constructor
  · simp [reset, rst_set_high, rst_set_low, delay_ms]
  · rfl

/-- Claim C3, counterexample: on the stream marker `42 4D`, length `00 1C`,
26 zero payload bytes and trailer `00 8F`, `measure` does not return a
Measurement; it fails with `InvalidData` carrying the computed sum
`0xAB = 171` and the received trailer `0x8F = 143` (the claimed trailer
`0x8F` is not the sum `0x42 + 0x4D + 0x00 + 0x1C = 0xAB`). -/
theorem C3_zero_frame_counterexample :
    measure ((byteStream ([0x42, 0x4D, 0x00, 0x1C] ++ List.replicate 26 0x00 ++
        [0x00, 0x8F])) : List (ReadResult Unit)) =
      some (.error (.InvalidData 171 143), []) := rfl

/-- Claim C3, amended: on the stream marker `42 4D`, length `00 1C`, 26 zero
payload bytes and trailer `00 AB` (0xAB being the mod-2^16 sum
`0x42 + 0x4D + 0x00 + 0x1C`), `measure` returns the Measurement with every
decoded field zero. -/
theorem C3_zero_frame_decodes :
    measure ((byteStream ([0x42, 0x4D, 0x00, 0x1C] ++ List.replicate 26 0x00 ++
        [0x00, 0xAB])) : List (ReadResult Unit)) =
      some (.ok ⟨⟨0, 0, 0⟩, ⟨0, 0, 0⟩, ⟨0, 0, 0, 0, 0, 0⟩⟩, []) := rfl

/-- Claim C4: for every stream whose frame has the marker and length field
28 but whose big-endian checksum trailer differs from the mod-2^16 sum of
marker bytes, length bytes and the 26 payload bytes, `measure` fails with
`InvalidData` carrying the computed sum first and the received trailer
second, and never returns a Measurement. -/
theorem C4_checksum_mismatch {E : Type} (payload : List Byte) (t0 t1 : Byte)
    (hp : payload.length = 26)
    (hne : extract_u16 t0 t1 ≠ (0x42 + 0x4D + 0x00 + 0x1C + sumBytes payload) % 65536) :
    measure ((byteStream ([0x42, 0x4D, 0x00, 0x1C] ++ payload ++ [t0, t1])) :
        List (ReadResult E)) =
      some (.error (.InvalidData ((0x42 + 0x4D + 0x00 + 0x1C + sumBytes payload) % 65536)
        (extract_u16 t0 t1)), []) := by
  have h := measure_full payload hp t0 t1 ([] : List (ReadResult E))
  rw [List.append_nil] at h
  rw [if_neg (fun hx => hne hx.symm)] at h
  exact h

/-- Claim C5: for every stream whose two bytes after the marker read
big-endian differ from 28, `measure` fails with `InvalidLength` carrying
exactly that value and consumes nothing past the two length bytes. -/
theorem C5_invalid_length {E : Type} (l0 l1 : Byte) (rest : List (ReadResult E))
    (h : extract_u16 l0 l1 ≠ 28) :
    measure (byteStream [0x42, 0x4D, l0, l1] ++ rest) =
      some (.error (.InvalidLength (extract_u16 l0 l1)), rest) := by
  have hs : byteStream [0x42, 0x4D, l0, l1] ++ rest =
      ReadResult.byte 0x42 :: ReadResult.byte 0x4D :: (byteStream [l0, l1] ++ rest) := by
    simp [byteStream]
  have h2 : readN 2 (byteStream [l0, l1] ++ rest) = some (.ok [l0, l1], rest) :=
    readN_bytes [l0, l1] rest
  rw [hs]
  unfold measure
  rw [syncScan_marker]
  simp only [PMS5003_DATA_LENGTH, h2, List.getD_cons_zero, List.getD_cons_succ]
  rw [if_pos (show extract_u16 l0 l1 ≠ 26 + 2 by simpa using h)]

/-- Claim C6: for every 26-byte payload, `Measurement::parse` is total and
deterministic and every output field is the big-endian 16-bit value of the
two payload bytes at its documented offset — standard concentrations at
offsets 0/2/4, atmospheric concentrations at 6/8/10, absolute counts at
12/14/16/18/20/22. -/
theorem C6_parse_offsets (P : List Byte) (hP : P.length = 26) :
    (Measurement.parse P).ug_per_m3.pm1p0 = 256 * (P.getD 0 0).val + (P.getD 1 0).val ∧
    (Measurement.parse P).ug_per_m3.pm2p5 = 256 * (P.getD 2 0).val + (P.getD 3 0).val ∧
    (Measurement.parse P).ug_per_m3.pm10p0 = 256 * (P.getD 4 0).val + (P.getD 5 0).val ∧
    (Measurement.parse P).ug_per_m3_atmospheric.pm1p0 =
      256 * (P.getD 6 0).val + (P.getD 7 0).val ∧
    (Measurement.parse P).ug_per_m3_atmospheric.pm2p5 =
      256 * (P.getD 8 0).val + (P.getD 9 0).val ∧
    (Measurement.parse P).ug_per_m3_atmospheric.pm10p0 =
      256 * (P.getD 10 0).val + (P.getD 11 0).val ∧
    (Measurement.parse P).per_0p1l.pm0p3 = 256 * (P.getD 12 0).val + (P.getD 13 0).val ∧
    (Measurement.parse P).per_0p1l.pm0p5 = 256 * (P.getD 14 0).val + (P.getD 15 0).val ∧
    (Measurement.parse P).per_0p1l.pm1p0 = 256 * (P.getD 16 0).val + (P.getD 17 0).val ∧
    (Measurement.parse P).per_0p1l.pm2p5 = 256 * (P.getD 18 0).val + (P.getD 19 0).val ∧
    (Measurement.parse P).per_0p1l.pm5p0 = 256 * (P.getD 20 0).val + (P.getD 21 0).val ∧
    (Measurement.parse P).per_0p1l.pm10p0 = 256 * (P.getD 22 0).val + (P.getD 23 0).val :=
  ⟨extract_u16_eq _ _, extract_u16_eq _ _, extract_u16_eq _ _, extract_u16_eq _ _,
   extract_u16_eq _ _, extract_u16_eq _ _, extract_u16_eq _ _, extract_u16_eq _ _,
   extract_u16_eq _ _, extract_u16_eq _ _, extract_u16_eq _ _, extract_u16_eq _ _⟩

/-- Claim C7: the decoder holds no state across calls — whenever a `measure`
call ends in any error and leaves a remainder that presents a fresh
well-formed frame, the next call on that remainder succeeds with exactly the
Measurement a first call on it would return. -/
theorem C7_stateless_retry {E : Type} (s rest : List (ReadResult E)) (err : Error E)
    (p : List Byte) (hfail : measure s = some (.error err, rest))
    (hp : p.length = 26) (hrest : rest = byteStream (frameBytes p)) :
    measure rest = some (.ok (Measurement.parse p), []) := by
  subst hrest
  have h := measure_frame p hp ([] : List (ReadResult E))
  rwa [List.append_nil] at h

/-- Claim C8: every single-byte read of every phase retries a would-block
outcome (it is never surfaced), and a hard error `e` is returned as
`Serial e` immediately, with the underlying value unmodified; shown for the
read primitive, both read loops, and `measure` during the synchronization,
length, payload and checksum phases. -/
theorem C8_retry_and_serial {E : Type} (e : E) (expect n : Nat)
    (s : List (ReadResult E)) :
    readOne (ReadResult.wouldBlock :: s) = readOne s ∧
    readOne (ReadResult.fail e :: s) = some (.error e, s) ∧
    syncScan expect (ReadResult.wouldBlock :: s) = syncScan expect s ∧
    syncScan expect (ReadResult.fail e :: s) = some (.error e, s) ∧
    readN (n + 1) (ReadResult.wouldBlock :: s) = readN (n + 1) s ∧
    readN (n + 1) (ReadResult.fail e :: s) = some (.error e, s) ∧
    measure (ReadResult.wouldBlock :: s) = measure s ∧
    measure (ReadResult.fail e :: s) = some (.error (.Serial e), s) ∧
    measure (byteStream [0x42, 0x4D] ++ ReadResult.fail e :: s) =
      some (.error (.Serial e), s) ∧
    measure (byteStream [0x42, 0x4D, 0x00, 0x1C] ++ ReadResult.fail e :: s) =
      some (.error (.Serial e), s) ∧
    measure (byteStream ([0x42, 0x4D, 0x00, 0x1C] ++ List.replicate 26 0x00) ++
        ReadResult.fail e :: s) =
      some (.error (.Serial e), s) :=
  ⟨rfl, rfl, rfl, rfl, rfl, rfl, rfl, rfl, rfl, rfl, rfl⟩

/-- Claim C9: the reserved payload bytes at offsets 24–25 never influence
the decoded result — payloads agreeing on bytes 0–23 parse to equal
Measurements. -/
theorem C9_reserved_bytes_unused (P1 P2 : List Byte)
    (h1 : P1.length = 26) (h2 : P2.length = 26)
    (hagree : ∀ i, i < 24 → P1.getD i 0 = P2.getD i 0) :
    Measurement.parse P1 = Measurement.parse P2 := by
  unfold Measurement.parse
  rw [hagree 0 (by norm_num), hagree 1 (by norm_num), hagree 2 (by norm_num),
    hagree 3 (by norm_num), hagree 4 (by norm_num), hagree 5 (by norm_num),
    hagree 6 (by norm_num), hagree 7 (by norm_num), hagree 8 (by norm_num),
    hagree 9 (by norm_num), hagree 10 (by norm_num), hagree 11 (by norm_num),
    hagree 12 (by norm_num), hagree 13 (by norm_num), hagree 14 (by norm_num),
    hagree 15 (by norm_num), hagree 16 (by norm_num), hagree 17 (by norm_num),
    hagree 18 (by norm_num), hagree 19 (by norm_num), hagree 20 (by norm_num),
    hagree 21 (by norm_num), hagree 22 (by norm_num), hagree 23 (by norm_num)]

/-- Claim C10: the checksum accumulation cannot overflow its 16-bit
accumulator — the marker contributes 143, the two length bytes at most 510,
the 26 payload bytes at most 6630, for a total of at most 7283 < 2^16, so
the wrapped sums equal the plain sums and the full checksum expression of
`measure` computes the plain sum of all checksummed bytes. -/
theorem C10_checksum_no_overflow (raw_length data : List Byte)
    (hl : raw_length.length = 2) (hd : data.length = 26) :
    checksum PMS5003_DATA_START + checksum raw_length + checksum data ≤ 7283 ∧
    checksum PMS5003_DATA_START = sumBytes PMS5003_DATA_START ∧
    checksum raw_length = sumBytes raw_length ∧
    checksum data = sumBytes data ∧
    ((checksum PMS5003_DATA_START + checksum raw_length) % 65536 + checksum data) % 65536
      = sumBytes PMS5003_DATA_START + sumBytes raw_length + sumBytes data := by
  have hb1 := sumBytes_le raw_length
  have hb2 := sumBytes_le data
  rw [hl] at hb1
  rw [hd] at hb2
  have e0 : checksum PMS5003_DATA_START = sumBytes PMS5003_DATA_START := by decide
  have s0 : sumBytes PMS5003_DATA_START = 143 := by decide
  have e1 : checksum raw_length = sumBytes raw_length := by
    rw [checksum_eq]; omega
  have e2 : checksum data = sumBytes data := by
    rw [checksum_eq]; omega
  refine ⟨?_, e0, e1, e2, ?_⟩
  · rw [e0, e1, e2, s0]; omega
  · rw [e0, e1, e2, s0]; omega

/-! ### Witnesses -/

set_option maxRecDepth 40000

/-- Witness for C1: one noise byte `0x00` before a well-formed all-zero
frame. -/
theorem C1_measure_skips_noise_witness :
    measure ((byteStream ([0x00] ++ frameBytes (List.replicate 26 0x00))) :
        List (ReadResult Unit)) =
        some (.ok (Measurement.parse (List.replicate 26 0x00)), []) ∧
    measure ((byteStream (frameBytes (List.replicate 26 0x00))) :
        List (ReadResult Unit)) =
        some (.ok (Measurement.parse (List.replicate 26 0x00)), []) ∧
    ∀ (expect : Nat) (b : Byte) (rest : List (ReadResult Unit)),
      syncScan expect (ReadResult.byte b :: rest) =
        if b = PMS5003_DATA_START.getD expect 0 then
          (if expect + 1 ≥ 2 then some (Except.ok (), rest)
           else syncScan (expect + 1) rest)
        else syncScan 0 rest :=
  C1_measure_skips_noise [0x00] (List.replicate 26 0x00) (by decide) (by decide)

/-- Witness for C4: all-zero payload with trailer `00 00`, whose value 0
differs from the computed sum 171. -/
theorem C4_checksum_mismatch_witness :
    measure ((byteStream ([0x42, 0x4D, 0x00, 0x1C] ++ List.replicate 26 0x00 ++
        [0x00, 0x00])) : List (ReadResult Unit)) =
      some (.error (.InvalidData
        ((0x42 + 0x4D + 0x00 + 0x1C + sumBytes (List.replicate 26 0x00)) % 65536)
        (extract_u16 0x00 0x00)), []) :=
  C4_checksum_mismatch (List.replicate 26 0x00) 0x00 0x00 (by decide) (by decide)

/-- Witness for C5: length bytes `00 1A` carry the value 26 ≠ 28. -/
theorem C5_invalid_length_witness :
    measure (byteStream [0x42, 0x4D, 0x00, 0x1A] ++ ([] : List (ReadResult Unit))) =
      some (.error (.InvalidLength (extract_u16 0x00 0x1A)), []) :=
  C5_invalid_length 0x00 0x1A ([] : List (ReadResult Unit)) (by decide)

/-- Witness for C6: the all-zero 26-byte payload. -/
theorem C6_parse_offsets_witness :
    (Measurement.parse (List.replicate 26 0x00)).ug_per_m3.pm1p0 =
      256 * ((List.replicate 26 (0x00 : Byte)).getD 0 0).val +
        ((List.replicate 26 (0x00 : Byte)).getD 1 0).val ∧
    (Measurement.parse (List.replicate 26 0x00)).ug_per_m3.pm2p5 =
      256 * ((List.replicate 26 (0x00 : Byte)).getD 2 0).val +
        ((List.replicate 26 (0x00 : Byte)).getD 3 0).val ∧
    (Measurement.parse (List.replicate 26 0x00)).ug_per_m3.pm10p0 =
      256 * ((List.replicate 26 (0x00 : Byte)).getD 4 0).val +
        ((List.replicate 26 (0x00 : Byte)).getD 5 0).val ∧
    (Measurement.parse (List.replicate 26 0x00)).ug_per_m3_atmospheric.pm1p0 =
      256 * ((List.replicate 26 (0x00 : Byte)).getD 6 0).val +
        ((List.replicate 26 (0x00 : Byte)).getD 7 0).val ∧
    (Measurement.parse (List.replicate 26 0x00)).ug_per_m3_atmospheric.pm2p5 =
      256 * ((List.replicate 26 (0x00 : Byte)).getD 8 0).val +
        ((List.replicate 26 (0x00 : Byte)).getD 9 0).val ∧
    (Measurement.parse (List.replicate 26 0x00)).ug_per_m3_atmospheric.pm10p0 =
      256 * ((List.replicate 26 (0x00 : Byte)).getD 10 0).val +
        ((List.replicate 26 (0x00 : Byte)).getD 11 0).val ∧
    (Measurement.parse (List.replicate 26 0x00)).per_0p1l.pm0p3 =
      256 * ((List.replicate 26 (0x00 : Byte)).getD 12 0).val +
        ((List.replicate 26 (0x00 : Byte)).getD 13 0).val ∧
    (Measurement.parse (List.replicate 26 0x00)).per_0p1l.pm0p5 =
      256 * ((List.replicate 26 (0x00 : Byte)).getD 14 0).val +
        ((List.replicate 26 (0x00 : Byte)).getD 15 0).val ∧
    (Measurement.parse (List.replicate 26 0x00)).per_0p1l.pm1p0 =
      256 * ((List.replicate 26 (0x00 : Byte)).getD 16 0).val +
        ((List.replicate 26 (0x00 : Byte)).getD 17 0).val ∧
    (Measurement.parse (List.replicate 26 0x00)).per_0p1l.pm2p5 =
      256 * ((List.replicate 26 (0x00 : Byte)).getD 18 0).val +
        ((List.replicate 26 (0x00 : Byte)).getD 19 0).val ∧
    (Measurement.parse (List.replicate 26 0x00)).per_0p1l.pm5p0 =
      256 * ((List.replicate 26 (0x00 : Byte)).getD 20 0).val +
        ((List.replicate 26 (0x00 : Byte)).getD 21 0).val ∧
    (Measurement.parse (List.replicate 26 0x00)).per_0p1l.pm10p0 =
      256 * ((List.replicate 26 (0x00 : Byte)).getD 22 0).val +
        ((List.replicate 26 (0x00 : Byte)).getD 23 0).val :=
  C6_parse_offsets (List.replicate 26 0x00) (by decide)

/-- Witness for C7: a first call fails with `InvalidLength 0` on length
bytes `00 00`, leaving a fresh all-zero frame; the second call decodes it. -/
theorem C7_stateless_retry_witness :
    measure ((byteStream (frameBytes (List.replicate 26 0x00))) :
        List (ReadResult Unit)) =
      some (.ok (Measurement.parse (List.replicate 26 0x00)), []) :=
  C7_stateless_retry
    (byteStream [0x42, 0x4D, 0x00, 0x00] ++ byteStream (frameBytes (List.replicate 26 0x00)))
    (byteStream (frameBytes (List.replicate 26 0x00)))
    (Error.InvalidLength 0) (List.replicate 26 0x00) (by rfl) (by decide) rfl

/-- Witness for C9: two payloads equal on bytes 0–23 and different at the
reserved offsets 24–25. -/
theorem C9_reserved_bytes_unused_witness :
    Measurement.parse (List.replicate 26 0x00) =
      Measurement.parse (List.replicate 24 0x00 ++ [0x01, 0x02]) :=
  C9_reserved_bytes_unused (List.replicate 26 0x00)
    (List.replicate 24 0x00 ++ [0x01, 0x02]) (by decide) (by decide) (by decide)

/-- Witness for C10: the length bytes `00 1C` and the all-zero payload. -/
theorem C10_checksum_no_overflow_witness :
    checksum PMS5003_DATA_START + checksum [0x00, 0x1C] +
      checksum (List.replicate 26 0x00) ≤ 7283 ∧
    checksum PMS5003_DATA_START = sumBytes PMS5003_DATA_START ∧
    checksum [0x00, 0x1C] = sumBytes [0x00, 0x1C] ∧
    checksum (List.replicate 26 0x00) = sumBytes (List.replicate 26 0x00) ∧
    ((checksum PMS5003_DATA_START + checksum [0x00, 0x1C]) % 65536 +
        checksum (List.replicate 26 0x00)) % 65536
      = sumBytes PMS5003_DATA_START + sumBytes [0x00, 0x1C] +
        sumBytes (List.replicate 26 0x00) :=
  C10_checksum_no_overflow [0x00, 0x1C] (List.replicate 26 0x00) (by decide) (by decide)

end PMS5003Lib
